import Mathlib

/-!
Shallow embedding of `src/wallet/node_rpc_proxy.cpp` (class `tools::NodeRPCProxy`),
a read-through cache between a wallet and a daemon's JSON-RPC interface.

Modelling conventions:
* The mutable cache record of the proxy becomes the structure `Cache`; each C++
  member keeps its name (`m_height`, `m_earliest_height`, ...).
* The offline flag `m_offline` and the wall clock `time(NULL)` are passed to
  each accessor explicitly (`offline : Bool`, `now : Nat`, times as `Nat`).
* A network round trip is modelled by handing the accessor the response the
  daemon would give (`RpcRes _`: the transport bool `r`, the status string and
  the payload); the accessor returns, besides its result and the updated cache,
  the number of network calls it performed, so that claims about "zero network
  calls" are statements about that count.
* Roster entries (`COMMAND_RPC_GET_SERVICE_NODES::response::entry`) are opaque
  payloads, modelled as `Nat`.
* Fallible accessors return `Except String α` mirroring
  `boost::optional<std::string>` plus the out-parameter.
-/

namespace NodeRPCProxy

/-- Status string of a successful daemon RPC, `CORE_RPC_STATUS_OK`. -/
def CORE_RPC_STATUS_OK : String := "OK"

/-- Status string of a busy daemon, `CORE_RPC_STATUS_BUSY`. -/
def CORE_RPC_STATUS_BUSY : String := "BUSY"

/-- Payload of a `get_version` response. -/
structure GET_VERSION_response where
  version : Nat
deriving DecidableEq

/-- Payload of a `get_info` response (the fields the proxy reads). -/
structure GET_INFO_response where
  height : Nat
  target_height : Nat
  block_weight_limit : Nat
  block_size_limit : Nat
deriving DecidableEq

/-- Payload of a `hard_fork_info` response (the fields the proxy reads). -/
structure HARD_FORK_INFO_response where
  version : Nat
  earliest_height : Nat
deriving DecidableEq

/-- Payload of a `get_fee_estimate` response (the fields the proxy reads). -/
structure GET_BASE_FEE_ESTIMATE_response where
  fee : Nat
  quantization_mask : Nat
deriving DecidableEq

/-- Payload of a `get_service_nodes` / `get_all_service_nodes` response;
entries are opaque. -/
structure GET_SERVICE_NODES_response where
  service_node_states : List Nat
deriving DecidableEq

/-- A daemon response as seen by the proxy: the transport result `r` of
`invoke_http_json_rpc`, the `status` field, and the payload. -/
structure RpcRes (α : Type) where
  r : Bool
  status : String
  body : α
deriving DecidableEq

/-- The mutable cache record owned by the proxy, one field per C++ member. -/
structure Cache where
  m_rpc_version : Nat
  m_height : Nat
  m_earliest_height : Fin 256 → Nat
  m_dynamic_base_fee_estimate : Nat
  m_dynamic_base_fee_estimate_cached_height : Nat
  m_dynamic_base_fee_estimate_grace_blocks : Nat
  m_fee_quantization_mask : Nat
  m_target_height : Nat
  m_block_weight_limit : Nat
  m_get_info_time : Nat
  m_height_time : Nat
  m_all_service_nodes_cached_height : Nat
  m_all_service_nodes : List Nat

/-- The macro `RETURN_ON_RPC_RESPONSE_ERROR(r, error, res, method)`.  At every
call site the `error` argument is a freshly default-constructed
`epee::json_rpc::error{}` whose code is 0, so its check always passes; the
remaining checks are, in order: the transport bool, a non-empty status, not
busy, and OK.  Returns the error string the macro would return, or `none` when
all checks pass. -/
def RETURN_ON_RPC_RESPONSE_ERROR (r : Bool) (status : String) : Option String :=
  if r = false then some "Failed to connect to daemon"
  else if status = "" then some ""
  else if status = CORE_RPC_STATUS_BUSY then some status
  else if status = CORE_RPC_STATUS_OK then none
  else some status

/-- The body of `NodeRPCProxy::invalidate()`: every field is overwritten,
numeric fields with 0 except `m_fee_quantization_mask` which is set to 1, and
the roster is cleared. -/
def invalidate (_st : Cache) : Cache :=
  { m_all_service_nodes_cached_height := 0
    m_all_service_nodes := []
    m_height := 0
    m_earliest_height := fun _ => 0
    m_dynamic_base_fee_estimate := 0
    m_dynamic_base_fee_estimate_cached_height := 0
    m_dynamic_base_fee_estimate_grace_blocks := 0
    m_fee_quantization_mask := 1
    m_rpc_version := 0
    m_target_height := 0
    m_block_weight_limit := 0
    m_get_info_time := 0
    m_height_time := 0 }

/-- An arbitrary representative of the indeterminate cache contents a freshly
allocated proxy holds before its constructor body runs. -/
def uninitCache : Cache :=
  { m_all_service_nodes_cached_height := 0
    m_all_service_nodes := []
    m_height := 0
    m_earliest_height := fun _ => 0
    m_dynamic_base_fee_estimate := 0
    m_dynamic_base_fee_estimate_cached_height := 0
    m_dynamic_base_fee_estimate_grace_blocks := 0
    m_fee_quantization_mask := 0
    m_rpc_version := 0
    m_target_height := 0
    m_block_weight_limit := 0
    m_get_info_time := 0
    m_height_time := 0 }

/-- The constructor `NodeRPCProxy::NodeRPCProxy`: it only calls
`invalidate()` on the cache fields. -/
def construct : Cache := invalidate uninitCache

/-- `NodeRPCProxy::get_rpc_version`.  Returns the error or the out-parameter
`rpc_version`, the updated cache, and the number of network calls made. -/
def get_rpc_version (st : Cache) (offline : Bool)
    (resp : RpcRes GET_VERSION_response) :
    Except String Nat × Cache × Nat :=
  if offline then (Except.error "offline", st, 0)
  else if st.m_rpc_version = 0 then
    match RETURN_ON_RPC_RESPONSE_ERROR resp.r resp.status with
    | some e => (Except.error e, st, 1)
    | none =>
        let st2 := { st with m_rpc_version := resp.body.version }
        (Except.ok st2.m_rpc_version, st2, 1)
  else (Except.ok st.m_rpc_version, st, 0)

/-- `NodeRPCProxy::set_height`: records the pushed height and resets the
height freshness timer to now. -/
def set_height (st : Cache) (h : Nat) (now : Nat) : Cache :=
  { st with m_height := h, m_height_time := now }

/-- `NodeRPCProxy::get_info`: offline check, then the 30-second staleness test
on `m_get_info_time`; on a stale cache one network call, and on its success the
five fields are written. -/
def get_info (st : Cache) (offline : Bool) (now : Nat)
    (resp : RpcRes GET_INFO_response) :
    Except String Unit × Cache × Nat :=
  if offline then (Except.error "offline", st, 0)
  else if st.m_get_info_time + 30 ≤ now then
    match RETURN_ON_RPC_RESPONSE_ERROR resp.r resp.status with
    | some e => (Except.error e, st, 1)
    | none =>
        (Except.ok (), { st with
          m_height := resp.body.height
          m_target_height := resp.body.target_height
          m_block_weight_limit :=
            if resp.body.block_weight_limit ≠ 0 then resp.body.block_weight_limit
            else resp.body.block_size_limit
          m_get_info_time := now
          m_height_time := now }, 1)
  else (Except.ok (), st, 0)

/-- `NodeRPCProxy::get_height`: serves the cached height inside the 30-second
window from `m_height_time` with no network activity, otherwise delegates to
`get_info`. -/
def get_height (st : Cache) (offline : Bool) (now : Nat)
    (resp : RpcRes GET_INFO_response) :
    Except String Nat × Cache × Nat :=
  if now < st.m_height_time + 30 then (Except.ok st.m_height, st, 0)
  else
    match get_info st offline now resp with
    | (Except.error e, st2, n) => (Except.error e, st2, n)
    | (Except.ok _, st2, n) => (Except.ok st2.m_height, st2, n)

/-- `NodeRPCProxy::get_target_height`: unconditionally delegates to
`get_info`, then returns the cached target height. -/
def get_target_height (st : Cache) (offline : Bool) (now : Nat)
    (resp : RpcRes GET_INFO_response) :
    Except String Nat × Cache × Nat :=
  match get_info st offline now resp with
  | (Except.error e, st2, n) => (Except.error e, st2, n)
  | (Except.ok _, st2, n) => (Except.ok st2.m_target_height, st2, n)

/-- `NodeRPCProxy::get_block_weight_limit`: unconditionally delegates to
`get_info`, then returns the cached weight limit. -/
def get_block_weight_limit (st : Cache) (offline : Bool) (now : Nat)
    (resp : RpcRes GET_INFO_response) :
    Except String Nat × Cache × Nat :=
  match get_info st offline now resp with
  | (Except.error e, st2, n) => (Except.error e, st2, n)
  | (Except.ok _, st2, n) => (Except.ok st2.m_block_weight_limit, st2, n)

/-- `NodeRPCProxy::get_earliest_height`: offline check, then a fetch-once
lookup in the 256-slot per-version table, with 0 meaning unfetched. -/
def get_earliest_height (st : Cache) (offline : Bool) (version : Fin 256)
    (resp : RpcRes HARD_FORK_INFO_response) :
    Except String Nat × Cache × Nat :=
  if offline then (Except.error "offline", st, 0)
  else if st.m_earliest_height version = 0 then
    match RETURN_ON_RPC_RESPONSE_ERROR resp.r resp.status with
    | some e => (Except.error e, st, 1)
    | none =>
        let st2 := { st with m_earliest_height :=
          fun w => if w = version then resp.body.earliest_height
                   else st.m_earliest_height w }
        (Except.ok (st2.m_earliest_height version), st2, 1)
  else (Except.ok (st.m_earliest_height version), st, 0)

/-- `NodeRPCProxy::get_hardfork_version`: always one fresh network call, no
cache interaction and no offline check; returns `none` on transport failure,
busy or non-OK status, paired with the network-call count. -/
def get_hardfork_version (resp : RpcRes HARD_FORK_INFO_response) :
    Option Nat × Nat :=
  if resp.r = false then (none, 1)
  else if resp.status = CORE_RPC_STATUS_BUSY then (none, 1)
  else if resp.status ≠ CORE_RPC_STATUS_OK then (none, 1)
  else (some resp.body.version, 1)

/-- `NodeRPCProxy::get_dynamic_base_fee_estimate`: resolves the height via
`get_height`, checks offline, and refetches the fee exactly when the cached
(height, grace blocks) pair differs from the requested one; a successful fetch
caches the fee, the pair it was computed for, and the raw quantization mask. -/
def get_dynamic_base_fee_estimate (st : Cache) (offline : Bool) (now : Nat)
    (grace_blocks : Nat) (info_resp : RpcRes GET_INFO_response)
    (fee_resp : RpcRes GET_BASE_FEE_ESTIMATE_response) :
    Except String Nat × Cache × Nat :=
  match get_height st offline now info_resp with
  | (Except.error e, st2, n) => (Except.error e, st2, n)
  | (Except.ok height, st2, n) =>
    if offline then (Except.error "offline", st2, n)
    else if st2.m_dynamic_base_fee_estimate_cached_height ≠ height ∨
            st2.m_dynamic_base_fee_estimate_grace_blocks ≠ grace_blocks then
      match RETURN_ON_RPC_RESPONSE_ERROR fee_resp.r fee_resp.status with
      | some e => (Except.error e, st2, n + 1)
      | none =>
          let st3 := { st2 with
            m_dynamic_base_fee_estimate := fee_resp.body.fee
            m_dynamic_base_fee_estimate_cached_height := height
            m_dynamic_base_fee_estimate_grace_blocks := grace_blocks
            m_fee_quantization_mask := fee_resp.body.quantization_mask }
          (Except.ok st3.m_dynamic_base_fee_estimate, st3, n + 1)
    else (Except.ok st2.m_dynamic_base_fee_estimate, st2, n)

/-- `NodeRPCProxy::get_fee_quantization_mask`: resolves the height via
`get_height`, checks offline, refetches when the cached fee height differs from
the current height (reusing the cached grace blocks as request parameter and
not updating that field), stores the raw mask, and coerces a zero mask to 1
only in the returned out-parameter. -/
def get_fee_quantization_mask (st : Cache) (offline : Bool) (now : Nat)
    (info_resp : RpcRes GET_INFO_response)
    (fee_resp : RpcRes GET_BASE_FEE_ESTIMATE_response) :
    Except String Nat × Cache × Nat :=
  match get_height st offline now info_resp with
  | (Except.error e, st2, n) => (Except.error e, st2, n)
  | (Except.ok height, st2, n) =>
    if offline then (Except.error "offline", st2, n)
    else
      let fetched :
          Except String Unit × Cache × Nat :=
        if st2.m_dynamic_base_fee_estimate_cached_height ≠ height then
          match RETURN_ON_RPC_RESPONSE_ERROR fee_resp.r fee_resp.status with
          | some e => (Except.error e, st2, n + 1)
          | none =>
              (Except.ok (), { st2 with
                m_dynamic_base_fee_estimate := fee_resp.body.fee
                m_dynamic_base_fee_estimate_cached_height := height
                m_fee_quantization_mask := fee_resp.body.quantization_mask },
               n + 1)
        else (Except.ok (), st2, n)
      match fetched with
      | (Except.error e, st3, m) => (Except.error e, st3, m)
      | (Except.ok _, st3, m) =>
          let mask := st3.m_fee_quantization_mask
          (Except.ok (if mask = 0 then 1 else mask), st3, m)

/-- `NodeRPCProxy::get_service_nodes`: always one fresh network call for the
given pubkeys, no cache interaction and no offline check.  Returns the roster,
the `failed` out-parameter and the network-call count. -/
def get_service_nodes (_pubkeys : List Nat)
    (resp : RpcRes GET_SERVICE_NODES_response) :
    List Nat × Option String × Nat :=
  if resp.r = false then ([], some "Failed to connect to daemon", 1)
  else if resp.status = CORE_RPC_STATUS_BUSY then ([], some resp.status, 1)
  else if resp.status ≠ CORE_RPC_STATUS_OK then ([], some resp.status, 1)
  else (resp.body.service_node_states, none, 1)

/-- `NodeRPCProxy::get_all_service_nodes`: resolves the height via
`get_height`; on a roster-height mismatch performs one fetch.  Transport
failure and busy status return early with the cache untouched; any other
non-OK status sets the error but still falls through to store the height and
roster before returning the stored roster. -/
def get_all_service_nodes (st : Cache) (offline : Bool) (now : Nat)
    (info_resp : RpcRes GET_INFO_response)
    (sn_resp : RpcRes GET_SERVICE_NODES_response) :
    List Nat × Option String × Cache × Nat :=
  match get_height st offline now info_resp with
  | (Except.error e, st2, n) => ([], some e, st2, n)
  | (Except.ok height, st2, n) =>
    if st2.m_all_service_nodes_cached_height ≠ height then
      if sn_resp.r = false then
        ([], some "Failed to connect to daemon", st2, n + 1)
      else if sn_resp.status = CORE_RPC_STATUS_BUSY then
        ([], some sn_resp.status, st2, n + 1)
      else
        let failed : Option String :=
          if sn_resp.status ≠ CORE_RPC_STATUS_OK then some sn_resp.status
          else none
        let st3 := { st2 with
          m_all_service_nodes_cached_height := height
          m_all_service_nodes := sn_resp.body.service_node_states }
        (st3.m_all_service_nodes, failed, st3, n + 1)
    else (st2.m_all_service_nodes, none, st2, n)

/-! Concrete responses and states used by witnesses and counterexamples. -/

/-- A successful `get_info` response carrying height 100, target height 110
and weight limit 300000. -/
def okInfoResp : RpcRes GET_INFO_response :=
  ⟨true, CORE_RPC_STATUS_OK, ⟨100, 110, 300000, 0⟩⟩

/-! Helper lemmas shared by the claim proofs. -/

/-- Inside the 30-second height window, `get_height` is a pure cache read. -/
theorem get_height_fresh {st : Cache} {offline : Bool} {now : Nat}
    (resp : RpcRes GET_INFO_response) (h : now < st.m_height_time + 30) :
    get_height st offline now resp = (Except.ok st.m_height, st, 0) := by
  unfold get_height
  rw [if_pos h]

/-- With a stale height window, `get_height` makes exactly the network calls
of the `get_info` it delegates to. -/
theorem get_height_stale_netcalls {st : Cache} {offline : Bool} {now : Nat}
    (resp : RpcRes GET_INFO_response) (h : st.m_height_time + 30 ≤ now) :
    (get_height st offline now resp).2.2 = (get_info st offline now resp).2.2 := by
  unfold get_height
  rw [if_neg (Nat.not_lt.mpr h)]
  rcases hgi : get_info st offline now resp with ⟨r, st2, n⟩
  cases r <;> simp [hgi]

/-- The network-call count of `get_info` is 1 exactly when the proxy is online
and the info window is stale; otherwise it is 0. -/
theorem get_info_netcalls (st : Cache) (offline : Bool) (now : Nat)
    (resp : RpcRes GET_INFO_response) :
    ((get_info st offline now resp).2.2 = 1 ↔
      offline = false ∧ st.m_get_info_time + 30 ≤ now) := by
  unfold get_info
  cases offline
  · simp only [Bool.false_eq_true, if_false]
    by_cases ht : st.m_get_info_time + 30 ≤ now
    · rw [if_pos ht]
      rcases hr : RETURN_ON_RPC_RESPONSE_ERROR resp.r resp.status with _ | e
      · simp [ht]
      · simp [ht]
    · rw [if_neg ht]
      simp [ht]
  · simp

/-- `get_info` never touches the roster cache fields. -/
theorem get_info_roster_frame (st : Cache) (offline : Bool) (now : Nat)
    (resp : RpcRes GET_INFO_response) :
    (get_info st offline now resp).2.1.m_all_service_nodes = st.m_all_service_nodes ∧
    (get_info st offline now resp).2.1.m_all_service_nodes_cached_height
      = st.m_all_service_nodes_cached_height := by
  unfold get_info
  cases offline
  · simp only [Bool.false_eq_true, if_false]
    by_cases ht : st.m_get_info_time + 30 ≤ now
    · rw [if_pos ht]
      rcases hr : RETURN_ON_RPC_RESPONSE_ERROR resp.r resp.status with _ | e <;>
        simp [hr]
    · rw [if_neg ht]
      exact ⟨rfl, rfl⟩
  · exact ⟨rfl, rfl⟩

/-- `get_height` never touches the roster cache fields. -/
theorem get_height_roster_frame (st : Cache) (offline : Bool) (now : Nat)
    (resp : RpcRes GET_INFO_response) :
    (get_height st offline now resp).2.1.m_all_service_nodes = st.m_all_service_nodes ∧
    (get_height st offline now resp).2.1.m_all_service_nodes_cached_height
      = st.m_all_service_nodes_cached_height := by
  unfold get_height
  by_cases hn : now < st.m_height_time + 30
  · rw [if_pos hn]
    exact ⟨rfl, rfl⟩
  · rw [if_neg hn]
    have := get_info_roster_frame st offline now resp
    rcases hgi : get_info st offline now resp with ⟨r, st2, n⟩
    rw [hgi] at this
    cases r <;> simpa [hgi] using this

/-! Claim theorems. -/

/-- C1, counterexample: the claim says `invalidate()` leaves
`fee_quantization_mask = 0`, but already for the state right after
construction the code stores 1 there. -/
theorem C1_counterexample :
    ¬ ((invalidate construct).m_fee_quantization_mask = 0) := by
  decide

/-- C1, amended: after `invalidate()` every cached field holds its sentinel —
zero or empty for all fields except `m_fee_quantization_mask`, which is set to
1 — and this holds for every prior cache state; the state immediately after
construction is exactly this invalidated state. -/
theorem C1_invalidate_sentinels (st : Cache) :
    (invalidate st).m_rpc_version = 0 ∧
    (invalidate st).m_height = 0 ∧
    (invalidate st).m_height_time = 0 ∧
    (invalidate st).m_target_height = 0 ∧
    (invalidate st).m_block_weight_limit = 0 ∧
    (invalidate st).m_get_info_time = 0 ∧
    (∀ v : Fin 256, (invalidate st).m_earliest_height v = 0) ∧
    (invalidate st).m_dynamic_base_fee_estimate = 0 ∧
    (invalidate st).m_dynamic_base_fee_estimate_cached_height = 0 ∧
    (invalidate st).m_dynamic_base_fee_estimate_grace_blocks = 0 ∧
    (invalidate st).m_fee_quantization_mask = 1 ∧
    (invalidate st).m_all_service_nodes = [] ∧
    (invalidate st).m_all_service_nodes_cached_height = 0 ∧
    invalidate st = construct :=
  ⟨rfl, rfl, rfl, rfl, rfl, rfl, fun _ => rfl, rfl, rfl, rfl, rfl, rfl, rfl, rfl⟩

/-- C5, counterexample: at time `height_time + 30` with the proxy offline,
`get_height` delegates to `get_info` but performs zero network calls and
fails with the offline error, refuting the claim that a call at
`height_time + 30` or later triggers a network call. -/
theorem C5_counterexample :
    construct.m_height_time + 30 ≤ 30 ∧
    (get_height construct true 30 okInfoResp).2.2 = 0 ∧
    (get_height construct true 30 okInfoResp).1 = Except.error "offline" :=
  ⟨by decide, rfl, rfl⟩

/-- C5, amended: inside the 30-second window from `height_time` a `get_height`
call is a pure cache read with zero network calls and no cache modification;
at `height_time + 30` or later it delegates to `get_info`, which performs a
network call exactly when the proxy is online and the info window is stale
(`get_info_time + 30 ≤ now`); in particular, offline it fails with the offline
error and zero network calls. -/
theorem C5_height_window (st : Cache) (offline : Bool) (now : Nat)
    (resp : RpcRes GET_INFO_response) :
    (now < st.m_height_time + 30 →
      get_height st offline now resp = (Except.ok st.m_height, st, 0)) ∧
    (st.m_height_time + 30 ≤ now →
      ((get_height st offline now resp).2.2 = 1 ↔
        offline = false ∧ st.m_get_info_time + 30 ≤ now) ∧
      (offline = true →
        get_height st offline now resp = (Except.error "offline", st, 0))) := by
  constructor
  · exact fun h => get_height_fresh resp h
  · intro h
    constructor
    · rw [get_height_stale_netcalls resp h]
      exact get_info_netcalls st offline now resp
    · intro hoff
      subst hoff
      unfold get_height
      rw [if_neg (Nat.not_lt.mpr h)]
      rfl

/-- C5 witness: the fresh window served from cache at time 10, and the stale
offline case at time 40, both on the freshly constructed cache. -/
theorem C5_witness :
    (10 < construct.m_height_time + 30 ∧
      get_height construct false 10 okInfoResp
        = (Except.ok construct.m_height, construct, 0)) ∧
    (construct.m_height_time + 30 ≤ 40 ∧
      ((get_height construct true 40 okInfoResp).2.2 = 1 ↔
        true = false ∧ construct.m_get_info_time + 30 ≤ 40) ∧
      (true = true →
        get_height construct true 40 okInfoResp
          = (Except.error "offline", construct, 0))) :=
  ⟨⟨by decide, (C5_height_window construct false 10 okInfoResp).1 (by decide)⟩,
   ⟨by decide, (C5_height_window construct true 40 okInfoResp).2 (by decide)⟩⟩

/-- C9: in offline mode `get_rpc_version`, `get_info` and
`get_earliest_height` fail immediately with the offline error, zero network
calls and an unchanged cache, while `get_hardfork_version` and
`get_service_nodes` contain no offline check and always perform their one
network call. -/
theorem C9_offline_asymmetry (st : Cache) (now : Nat) (v : Fin 256)
    (vresp : RpcRes GET_VERSION_response) (iresp : RpcRes GET_INFO_response)
    (hresp : RpcRes HARD_FORK_INFO_response)
    (hfresp : RpcRes HARD_FORK_INFO_response) (pubkeys : List Nat)
    (snresp : RpcRes GET_SERVICE_NODES_response) :
    get_rpc_version st true vresp = (Except.error "offline", st, 0) ∧
    get_info st true now iresp = (Except.error "offline", st, 0) ∧
    get_earliest_height st true v hresp = (Except.error "offline", st, 0) ∧
    (get_hardfork_version hfresp).2 = 1 ∧
    (get_service_nodes pubkeys snresp).2.2 = 1 := by
  refine ⟨rfl, rfl, rfl, ?_, ?_⟩
  · unfold get_hardfork_version
    split_ifs <;> rfl
  · unfold get_service_nodes
    split_ifs <;> rfl

/-- C10: `get_height` performs no offline check of its own — inside the
30-second height window it succeeds from the cache even offline; only the
stale path, delegating to `get_info`, fails with the offline error. -/
theorem C10_get_height_offline (st : Cache) (now : Nat)
    (resp : RpcRes GET_INFO_response) :
    (now < st.m_height_time + 30 →
      get_height st true now resp = (Except.ok st.m_height, st, 0)) ∧
    (st.m_height_time + 30 ≤ now →
      get_height st true now resp = (Except.error "offline", st, 0)) := by
  constructor
  · exact fun h => get_height_fresh resp h
  · intro h
    unfold get_height
    rw [if_neg (Nat.not_lt.mpr h)]
    rfl

/-- C10 witness: after a `set_height 42` push at time 100, an offline
`get_height` at time 110 serves 42 with no network call, while at time 130 it
fails with the offline error. -/
theorem C10_witness :
    (110 < (set_height construct 42 100).m_height_time + 30 ∧
      get_height (set_height construct 42 100) true 110 okInfoResp
        = (Except.ok (set_height construct 42 100).m_height,
           set_height construct 42 100, 0)) ∧
    ((set_height construct 42 100).m_height_time + 30 ≤ 130 ∧
      get_height (set_height construct 42 100) true 130 okInfoResp
        = (Except.error "offline", set_height construct 42 100, 0)) :=
  ⟨⟨by decide,
    (C10_get_height_offline (set_height construct 42 100) 110 okInfoResp).1 (by decide)⟩,
   ⟨by decide,
    (C10_get_height_offline (set_height construct 42 100) 130 okInfoResp).2 (by decide)⟩⟩

/-- The cache state `get_info` produces from `okInfoResp` on a stale-window
success at time 30 starting from the constructed cache. -/
def infoUpdated : Cache :=
  { construct with
    m_height := 100
    m_target_height := 110
    m_block_weight_limit := 300000
    m_get_info_time := 30
    m_height_time := 30 }

/-- C4: every failing `get_info` call (offline, transport failure, empty
status, busy, or other non-OK status) leaves the cache untouched and surfaces
the error; a successful refresh on a stale window makes exactly one network
call and writes exactly the five fields, with `block_weight_limit` taking the
weight-limit field of the response when non-zero and the legacy size-limit
field otherwise. -/
theorem C4_get_info_frame (st : Cache) (offline : Bool) (now : Nat)
    (resp : RpcRes GET_INFO_response) :
    (∀ e st2 n, get_info st offline now resp = (Except.error e, st2, n) →
      st2 = st) ∧
    (∀ st2 n, st.m_get_info_time + 30 ≤ now →
      get_info st offline now resp = (Except.ok (), st2, n) →
      n = 1 ∧
      st2 = { st with
        m_height := resp.body.height
        m_target_height := resp.body.target_height
        m_block_weight_limit :=
          if resp.body.block_weight_limit ≠ 0 then resp.body.block_weight_limit
          else resp.body.block_size_limit
        m_get_info_time := now
        m_height_time := now }) := by
  constructor
  · intro e st2 n h
    unfold get_info at h
    split at h
    · simp only [Prod.mk.injEq] at h
      exact h.2.1.symm
    · split at h
      · split at h
        · simp only [Prod.mk.injEq] at h
          exact h.2.1.symm
        · simp at h
      · simp only [Prod.mk.injEq] at h
        exact h.2.1.symm
  · intro st2 n ht h
    unfold get_info at h
    split at h
    · simp at h
    · split at h
      · simp at h
      · simp only [Prod.mk.injEq] at h
        exact ⟨h.2.2.symm, h.2.1.symm⟩

/-- C4 witness: an offline failure at time 0 leaves the constructed cache
unchanged, and a successful stale refresh at time 30 writes exactly the five
fields from `okInfoResp`. -/
theorem C4_witness :
    (get_info construct true 0 okInfoResp = (Except.error "offline", construct, 0) ∧
      construct = construct) ∧
    (construct.m_get_info_time + 30 ≤ 30 ∧
      get_info construct false 30 okInfoResp = (Except.ok (), infoUpdated, 1) ∧
      (1 = 1 ∧
        infoUpdated = { construct with
          m_height := okInfoResp.body.height
          m_target_height := okInfoResp.body.target_height
          m_block_weight_limit :=
            if okInfoResp.body.block_weight_limit ≠ 0 then
              okInfoResp.body.block_weight_limit
            else okInfoResp.body.block_size_limit
          m_get_info_time := 30
          m_height_time := 30 })) :=
  ⟨⟨rfl, (C4_get_info_frame construct true 0 okInfoResp).1 "offline" construct 0 rfl⟩,
   ⟨by decide, rfl,
    (C4_get_info_frame construct false 30 okInfoResp).2 infoUpdated 1 (by decide) rfl⟩⟩

/-- C7: a `get_earliest_height v` call neither writes any slot `w ≠ v` of the
256-entry table nor any other cache field, and its result, outcome and
network-call count do not depend on the contents of slot `w`: the per-version
slots are fully independent. -/
theorem C7_earliest_height_independent (st : Cache) (offline : Bool)
    (v w : Fin 256) (resp : RpcRes HARD_FORK_INFO_response) (x : Nat)
    (hw : w ≠ v) :
    (get_earliest_height st offline v resp).2.1.m_earliest_height w
        = st.m_earliest_height w ∧
    (get_earliest_height st offline v resp).2.1.m_rpc_version = st.m_rpc_version ∧
    (get_earliest_height st offline v resp).2.1.m_height = st.m_height ∧
    (get_earliest_height st offline v resp).2.1.m_height_time = st.m_height_time ∧
    (get_earliest_height st offline v resp).2.1.m_target_height = st.m_target_height ∧
    (get_earliest_height st offline v resp).2.1.m_block_weight_limit
        = st.m_block_weight_limit ∧
    (get_earliest_height st offline v resp).2.1.m_get_info_time = st.m_get_info_time ∧
    (get_earliest_height st offline v resp).2.1.m_dynamic_base_fee_estimate
        = st.m_dynamic_base_fee_estimate ∧
    (get_earliest_height st offline v resp).2.1.m_dynamic_base_fee_estimate_cached_height
        = st.m_dynamic_base_fee_estimate_cached_height ∧
    (get_earliest_height st offline v resp).2.1.m_dynamic_base_fee_estimate_grace_blocks
        = st.m_dynamic_base_fee_estimate_grace_blocks ∧
    (get_earliest_height st offline v resp).2.1.m_fee_quantization_mask
        = st.m_fee_quantization_mask ∧
    (get_earliest_height st offline v resp).2.1.m_all_service_nodes
        = st.m_all_service_nodes ∧
    (get_earliest_height st offline v resp).2.1.m_all_service_nodes_cached_height
        = st.m_all_service_nodes_cached_height ∧
    (get_earliest_height
        { st with m_earliest_height :=
            fun u => if u = w then x else st.m_earliest_height u }
        offline v resp).1
      = (get_earliest_height st offline v resp).1 ∧
    (get_earliest_height
        { st with m_earliest_height :=
            fun u => if u = w then x else st.m_earliest_height u }
        offline v resp).2.2
      = (get_earliest_height st offline v resp).2.2 := by
  have hvw : v ≠ w := hw.symm
  unfold get_earliest_height
  cases offline
  · simp only [Bool.false_eq_true, if_false]
    by_cases h0 : st.m_earliest_height v = 0
    · rw [if_pos h0]
      rcases hr : RETURN_ON_RPC_RESPONSE_ERROR resp.r resp.status with _ | e
      · simp [h0, hvw, hw]
      · simp [h0, hvw, hw]
    · rw [if_neg h0]
      simp [h0, hvw]
  · simp

/-- C7 witness: slots 5 and 7 of the constructed cache are independent. -/
theorem C7_witness :
    ((7 : Fin 256) ≠ (5 : Fin 256)) ∧
    (get_earliest_height construct false 5 ⟨true, CORE_RPC_STATUS_OK, ⟨1, 9⟩⟩).2.1.m_earliest_height 7
      = construct.m_earliest_height 7 :=
  ⟨by decide,
   (C7_earliest_height_independent construct false 5 7
      ⟨true, CORE_RPC_STATUS_OK, ⟨1, 9⟩⟩ 3 (by decide)).1⟩

/-- C8, counterexample: when the node answers the first
`get_earliest_height 5` with earliest height 0, the call succeeds returning 0
but the slot stays at the unfetched sentinel, so the next call for version 5
performs another network call instead of the claimed zero. -/
theorem C8_counterexample :
    (get_earliest_height construct false 5 ⟨true, CORE_RPC_STATUS_OK, ⟨1, 0⟩⟩).1
      = Except.ok 0 ∧
    (get_earliest_height
        (get_earliest_height construct false 5
          ⟨true, CORE_RPC_STATUS_OK, ⟨1, 0⟩⟩).2.1
        false 5 ⟨true, CORE_RPC_STATUS_OK, ⟨1, 0⟩⟩).2.2 = 1 :=
  ⟨rfl, rfl⟩

/-- C8, amended: provided the node returned a non-zero earliest height (the
slot's unfetched sentinel is 0), after a first successful
`get_earliest_height v` every subsequent call for `v` returns the same value
with zero network calls and an unchanged cache, whatever the daemon would now
answer. -/
theorem C8_fetch_once (st : Cache) (v : Fin 256)
    (resp : RpcRes HARD_FORK_INFO_response)
    (hnz : resp.body.earliest_height ≠ 0)
    (h1 : Nat) (st1 : Cache) (n1 : Nat)
    (hcall : get_earliest_height st false v resp = (Except.ok h1, st1, n1))
    (resp2 : RpcRes HARD_FORK_INFO_response) :
    get_earliest_height st1 false v resp2 = (Except.ok h1, st1, 0) := by
  unfold get_earliest_height at hcall ⊢
  simp only [Bool.false_eq_true, if_false] at hcall ⊢
  split at hcall
  · rename_i h0
    split at hcall
    · simp at hcall
    · simp only [Prod.mk.injEq, Except.ok.injEq] at hcall
      obtain ⟨hh1, hst1, -⟩ := hcall
      rw [← hst1]
      have hslot : (fun w => if w = v then resp.body.earliest_height
          else st.m_earliest_height w) v = resp.body.earliest_height := by simp
      have hh2 : resp.body.earliest_height = h1 := by simpa using hh1
      rw [if_neg (by simpa [hslot] using hnz)]
      simp [hslot, hh2]
  · rename_i h0
    simp only [Prod.mk.injEq, Except.ok.injEq] at hcall
    obtain ⟨hh1, hst1, -⟩ := hcall
    rw [← hst1]
    rw [if_neg (by simpa [← hh1] using h0)]
    simp [hh1]

/-- C8 witness: a first fetch of version 5 answered with earliest height 7 is
cached; the second call returns 7 with zero network calls even if the daemon
would now answer differently. -/
theorem C8_witness :
    ((⟨true, CORE_RPC_STATUS_OK, ⟨1, 7⟩⟩ : RpcRes HARD_FORK_INFO_response).body.earliest_height ≠ 0) ∧
    (get_earliest_height construct false 5 ⟨true, CORE_RPC_STATUS_OK, ⟨1, 7⟩⟩
      = (Except.ok 7,
         { construct with m_earliest_height :=
             fun w => if w = (5 : Fin 256) then 7 else construct.m_earliest_height w },
         1)) ∧
    (get_earliest_height
        { construct with m_earliest_height :=
            fun w => if w = (5 : Fin 256) then 7 else construct.m_earliest_height w }
        false 5 ⟨false, "", ⟨0, 0⟩⟩
      = (Except.ok 7,
         { construct with m_earliest_height :=
             fun w => if w = (5 : Fin 256) then 7 else construct.m_earliest_height w },
         0)) :=
  ⟨by decide, rfl,
   C8_fetch_once construct 5 ⟨true, CORE_RPC_STATUS_OK, ⟨1, 7⟩⟩ (by decide) 7
     { construct with m_earliest_height :=
         fun w => if w = (5 : Fin 256) then 7 else construct.m_earliest_height w }
     1 rfl ⟨false, "", ⟨0, 0⟩⟩⟩

/-- A successful `get_fee_estimate` response whose quantization mask is 0. -/
def feeZeroResp : RpcRes GET_BASE_FEE_ESTIMATE_response :=
  ⟨true, CORE_RPC_STATUS_OK, ⟨7, 0⟩⟩

/-- A cache at height 50 with a fresh height window at time 100. -/
def stC2 : Cache := { construct with m_height := 50, m_height_time := 100 }

/-- The cache `get_fee_quantization_mask` produces from `stC2` and
`feeZeroResp`: the zero mask is stored raw. -/
def c2maskedState : Cache :=
  { stC2 with
    m_dynamic_base_fee_estimate := 7
    m_dynamic_base_fee_estimate_cached_height := 50
    m_fee_quantization_mask := 0 }

/-- C2, counterexample: a fee-estimate response carrying quantization mask 0
is stored raw — the cached `m_fee_quantization_mask` after
`get_dynamic_base_fee_estimate` is 0, not the claimed coerced 1. -/
theorem C2_counterexample :
    feeZeroResp.body.quantization_mask = 0 ∧
    (get_dynamic_base_fee_estimate stC2 false 100 2 okInfoResp feeZeroResp).2.1.m_fee_quantization_mask
      = 0 :=
  ⟨rfl, rfl⟩

/-- C2, amended: both caching paths store the node's quantization mask raw,
zero included; the coercion of a zero mask to 1 happens only on the value
returned by `get_fee_quantization_mask`, so every successful
`get_fee_quantization_mask` call returns a non-zero mask. -/
theorem C2_mask_nonzero :
    (∀ (st : Cache) (offline : Bool) (now : Nat)
        (iresp : RpcRes GET_INFO_response)
        (fresp : RpcRes GET_BASE_FEE_ESTIMATE_response)
        (v : Nat) (st2 : Cache) (n : Nat),
        get_fee_quantization_mask st offline now iresp fresp
            = (Except.ok v, st2, n) →
        v ≠ 0) ∧
    (∀ (st : Cache) (now g : Nat) (iresp : RpcRes GET_INFO_response)
        (fresp : RpcRes GET_BASE_FEE_ESTIMATE_response),
        now < st.m_height_time + 30 →
        st.m_dynamic_base_fee_estimate_cached_height ≠ st.m_height →
        RETURN_ON_RPC_RESPONSE_ERROR fresp.r fresp.status = none →
        (get_dynamic_base_fee_estimate st false now g iresp fresp).2.1.m_fee_quantization_mask
            = fresp.body.quantization_mask ∧
        (get_fee_quantization_mask st false now iresp fresp).2.1.m_fee_quantization_mask
            = fresp.body.quantization_mask) := by
  constructor
  · intro st offline now iresp fresp v st2 n h
    unfold get_fee_quantization_mask at h
    rcases hgh : get_height st offline now iresp with ⟨r, stx, m⟩
    rw [hgh] at h
    cases r with
    | error e => simp at h
    | ok height =>
      simp only [] at h
      split at h
      · simp at h
      · split at h
        · simp at h
        · simp only [Prod.mk.injEq, Except.ok.injEq] at h
          obtain ⟨hv, -, -⟩ := h
          rw [← hv]
          split
          · exact one_ne_zero
          · assumption
  · intro st now g iresp fresp hfresh hmiss hok
    constructor
    · unfold get_dynamic_base_fee_estimate
      rw [get_height_fresh iresp hfresh]
      simp only [Bool.false_eq_true, if_false]
      rw [if_pos (Or.inl hmiss), hok]
    · unfold get_fee_quantization_mask
      rw [get_height_fresh iresp hfresh]
      simp only [Bool.false_eq_true, if_false]
      rw [if_pos hmiss, hok]

/-- C2 witness: on `stC2` with `feeZeroResp`, `get_fee_quantization_mask`
returns 1 while both caching paths store the raw 0. -/
theorem C2_witness :
    (get_fee_quantization_mask stC2 false 100 okInfoResp feeZeroResp
        = (Except.ok 1, c2maskedState, 1) ∧ (1 : Nat) ≠ 0) ∧
    (100 < stC2.m_height_time + 30 ∧
      stC2.m_dynamic_base_fee_estimate_cached_height ≠ stC2.m_height ∧
      RETURN_ON_RPC_RESPONSE_ERROR feeZeroResp.r feeZeroResp.status = none ∧
      ((get_dynamic_base_fee_estimate stC2 false 100 2 okInfoResp feeZeroResp).2.1.m_fee_quantization_mask
          = feeZeroResp.body.quantization_mask ∧
       (get_fee_quantization_mask stC2 false 100 okInfoResp feeZeroResp).2.1.m_fee_quantization_mask
          = feeZeroResp.body.quantization_mask)) :=
  ⟨⟨rfl, C2_mask_nonzero.1 stC2 false 100 okInfoResp feeZeroResp 1 c2maskedState 1 rfl⟩,
   ⟨by decide, by decide, rfl,
    C2_mask_nonzero.2 stC2 100 2 okInfoResp feeZeroResp (by decide) (by decide) rfl⟩⟩

/-- A cache at height 77 with a fresh height window at time 100. -/
def stC3 : Cache := { construct with m_height := 77, m_height_time := 100 }

/-- A roster fetch that fails at the transport level. -/
def snFail : RpcRes GET_SERVICE_NODES_response := ⟨false, "", ⟨[]⟩⟩

/-- A roster fetch answered with the busy status. -/
def snBusy : RpcRes GET_SERVICE_NODES_response := ⟨true, CORE_RPC_STATUS_BUSY, ⟨[]⟩⟩

/-- A roster fetch answered with a non-OK, non-busy status. -/
def snErr : RpcRes GET_SERVICE_NODES_response := ⟨true, "Internal error", ⟨[3]⟩⟩

/-- C3: when the roster fetch of `get_all_service_nodes` fails at the
transport level or reports busy, the call returns the error with an empty
result and the roster cache fields unchanged; on any other non-OK status it
still stores the current height and the response's roster before returning
that status as the error. -/
theorem C3_all_service_nodes_status (st : Cache) (offline : Bool) (now : Nat)
    (iresp : RpcRes GET_INFO_response) (snresp : RpcRes GET_SERVICE_NODES_response)
    (h : Nat) (st2 : Cache) (n : Nat)
    (hgh : get_height st offline now iresp = (Except.ok h, st2, n))
    (hmiss : st2.m_all_service_nodes_cached_height ≠ h) :
    (snresp.r = false →
      get_all_service_nodes st offline now iresp snresp
          = ([], some "Failed to connect to daemon", st2, n + 1) ∧
      st2.m_all_service_nodes = st.m_all_service_nodes ∧
      st2.m_all_service_nodes_cached_height = st.m_all_service_nodes_cached_height) ∧
    (snresp.r = true → snresp.status = CORE_RPC_STATUS_BUSY →
      get_all_service_nodes st offline now iresp snresp
          = ([], some snresp.status, st2, n + 1) ∧
      st2.m_all_service_nodes = st.m_all_service_nodes ∧
      st2.m_all_service_nodes_cached_height = st.m_all_service_nodes_cached_height) ∧
    (snresp.r = true → snresp.status ≠ CORE_RPC_STATUS_BUSY →
      snresp.status ≠ CORE_RPC_STATUS_OK →
      get_all_service_nodes st offline now iresp snresp
          = (snresp.body.service_node_states, some snresp.status,
             { st2 with
               m_all_service_nodes_cached_height := h
               m_all_service_nodes := snresp.body.service_node_states }, n + 1)) := by
  have hfr := get_height_roster_frame st offline now iresp
  rw [hgh] at hfr
  simp only [] at hfr
  unfold get_all_service_nodes
  rw [hgh]
  simp only []
  rw [if_pos hmiss]
  refine ⟨?_, ?_, ?_⟩
  · intro hr
    rw [if_pos hr]
    exact ⟨rfl, hfr.1, hfr.2⟩
  · intro hr hbusy
    rw [if_neg (by simp [hr]), if_pos hbusy]
    exact ⟨rfl, hfr.1, hfr.2⟩
  · intro hr hbusy hok
    rw [if_neg (by simp [hr]), if_neg hbusy]
    rw [if_pos hok]

/-- C3 witness: on the height-77 cache, a transport failure and a busy status
leave the roster cache untouched, while an "Internal error" status stores the
height and roster before surfacing the error. -/
theorem C3_witness :
    (get_all_service_nodes stC3 false 100 okInfoResp snFail
        = ([], some "Failed to connect to daemon", stC3, 0 + 1) ∧
      stC3.m_all_service_nodes = stC3.m_all_service_nodes ∧
      stC3.m_all_service_nodes_cached_height = stC3.m_all_service_nodes_cached_height) ∧
    (get_all_service_nodes stC3 false 100 okInfoResp snBusy
        = ([], some snBusy.status, stC3, 0 + 1) ∧
      stC3.m_all_service_nodes = stC3.m_all_service_nodes ∧
      stC3.m_all_service_nodes_cached_height = stC3.m_all_service_nodes_cached_height) ∧
    (get_all_service_nodes stC3 false 100 okInfoResp snErr
        = (snErr.body.service_node_states, some snErr.status,
           { stC3 with
             m_all_service_nodes_cached_height := 77
             m_all_service_nodes := snErr.body.service_node_states }, 0 + 1)) :=
  ⟨(C3_all_service_nodes_status stC3 false 100 okInfoResp snFail 77 stC3 0 rfl
      (by decide)).1 rfl,
   (C3_all_service_nodes_status stC3 false 100 okInfoResp snBusy 77 stC3 0 rfl
      (by decide)).2.1 rfl rfl,
   (C3_all_service_nodes_status stC3 false 100 okInfoResp snErr 77 stC3 0 rfl
      (by decide)).2.2 rfl (by decide) (by decide)⟩

/-- A cache at height 100 with a fresh height window at time 60 whose fee
cache was computed for the pair (100, 2). -/
def stC6 : Cache :=
  { construct with
    m_height := 100
    m_height_time := 50
    m_dynamic_base_fee_estimate := 9
    m_dynamic_base_fee_estimate_cached_height := 100
    m_dynamic_base_fee_estimate_grace_blocks := 2 }

/-- A successful `get_fee_estimate` response with fee 13 and mask 8. -/
def feeOkResp : RpcRes GET_BASE_FEE_ESTIMATE_response :=
  ⟨true, CORE_RPC_STATUS_OK, ⟨13, 8⟩⟩

/-- C6: with a fresh height window, the fee cache of
`get_dynamic_base_fee_estimate` is keyed on the pair (current height,
requested grace blocks): on a matching pair the cached fee is served with no
network call and no cache change; on a mismatch one network call is made, and
on its success the fee is cached for the current pair, so an identical
subsequent call is a hit. -/
theorem C6_fee_cache_key (st : Cache) (now g : Nat)
    (iresp : RpcRes GET_INFO_response)
    (fresp : RpcRes GET_BASE_FEE_ESTIMATE_response)
    (hfresh : now < st.m_height_time + 30) :
    (st.m_dynamic_base_fee_estimate_cached_height = st.m_height ∧
        st.m_dynamic_base_fee_estimate_grace_blocks = g →
      get_dynamic_base_fee_estimate st false now g iresp fresp
        = (Except.ok st.m_dynamic_base_fee_estimate, st, 0)) ∧
    (¬ (st.m_dynamic_base_fee_estimate_cached_height = st.m_height ∧
          st.m_dynamic_base_fee_estimate_grace_blocks = g) →
      (get_dynamic_base_fee_estimate st false now g iresp fresp).2.2 = 1) ∧
    (¬ (st.m_dynamic_base_fee_estimate_cached_height = st.m_height ∧
          st.m_dynamic_base_fee_estimate_grace_blocks = g) →
      RETURN_ON_RPC_RESPONSE_ERROR fresp.r fresp.status = none →
      get_dynamic_base_fee_estimate st false now g iresp fresp
        = (Except.ok fresp.body.fee,
           { st with
             m_dynamic_base_fee_estimate := fresp.body.fee
             m_dynamic_base_fee_estimate_cached_height := st.m_height
             m_dynamic_base_fee_estimate_grace_blocks := g
             m_fee_quantization_mask := fresp.body.quantization_mask }, 0 + 1)) := by
  unfold get_dynamic_base_fee_estimate
  rw [get_height_fresh iresp hfresh]
  simp only [Bool.false_eq_true, if_false]
  refine ⟨?_, ?_, ?_⟩
  · rintro ⟨h1, h2⟩
    rw [if_neg (by simp [h1, h2])]
  · intro hmiss
    rw [if_pos (not_and_or.mp hmiss)]
    rcases hr : RETURN_ON_RPC_RESPONSE_ERROR fresp.r fresp.status with _ | e <;>
      rfl
  · intro hmiss hok
    rw [if_pos (not_and_or.mp hmiss), hok]

/-- C6 witness: on the (100, 2)-cached state, a grace-2 call is a hit with no
network call; a grace-3 call makes one network call and caches (100, 3). -/
theorem C6_witness :
    (get_dynamic_base_fee_estimate stC6 false 60 2 okInfoResp feeOkResp
        = (Except.ok stC6.m_dynamic_base_fee_estimate, stC6, 0)) ∧
    ((get_dynamic_base_fee_estimate stC6 false 60 3 okInfoResp feeOkResp).2.2 = 1) ∧
    (get_dynamic_base_fee_estimate stC6 false 60 3 okInfoResp feeOkResp
        = (Except.ok feeOkResp.body.fee,
           { stC6 with
             m_dynamic_base_fee_estimate := feeOkResp.body.fee
             m_dynamic_base_fee_estimate_cached_height := stC6.m_height
             m_dynamic_base_fee_estimate_grace_blocks := 3
             m_fee_quantization_mask := feeOkResp.body.quantization_mask }, 0 + 1)) :=
  ⟨(C6_fee_cache_key stC6 60 2 okInfoResp feeOkResp (by decide)).1 (by decide),
   (C6_fee_cache_key stC6 60 3 okInfoResp feeOkResp (by decide)).2.1 (by decide),
   (C6_fee_cache_key stC6 60 3 okInfoResp feeOkResp (by decide)).2.2 (by decide) rfl⟩

end NodeRPCProxy
